import Mathlib

/-!
Shallow embedding of the `unite-cosmos` cross-chain atomic-swap escrow
contract (CosmWasm, Rust) and verification of its specification claims.

The embedding follows the source files `state.rs`, `execute.rs` and
`factory.rs`.  Machine integers (`u8`, `u32`, `u64`, `Uint128`) are
modelled as `Nat`, with explicit `% 2 ^ w` truncation exactly where the
source casts (`as u32`) or masks bits.  Storage is an explicit record of
association lists mirroring the `cw_storage_plus` items and maps; every
entry point takes and returns the storage, and returns the storage as
left at the point of an early error return.  Fund movement is modelled
as the list of `CosmosMsg` transfer instructions a successful call emits.
-/

set_option maxRecDepth 10000

namespace UniteCosmos

/-! ### Association-list maps (model of `cw_storage_plus::Map` / `Item`) -/

def mapGet {α β : Type} [DecidableEq α] : List (α × β) → α → Option β
  | [], _ => none
  | (k', v) :: t, k => if k = k' then some v else mapGet t k

def mapSet {α β : Type} [DecidableEq α] : List (α × β) → α → β → List (α × β)
  | [], k, v => [(k, v)]
  | (k', v') :: t, k, v => if k = k' then (k, v) :: t else (k', v') :: mapSet t k v

theorem mapGet_mapSet_self {α β : Type} [DecidableEq α] (m : List (α × β)) (k : α) (v : β) :
    mapGet (mapSet m k v) k = some v := by
  induction m with
  | nil => simp [mapGet, mapSet]
  | cons hd t ih =>
    obtain ⟨k', v'⟩ := hd
    by_cases hk : k = k' <;> simp [mapGet, mapSet, hk, ih]

/-! ### SHA-256 (model of the `sha2` crate), over byte lists, `Nat` words -/

/-- Truncate to a 32-bit word. -/
def w32 (x : Nat) : Nat := x % 4294967296

/-- Right-rotation of a 32-bit word. -/
def rotr32 (n x : Nat) : Nat := (x >>> n) + ((x % 2 ^ n) * 2 ^ (32 - n))

/-- Bitwise complement within 32 bits (inputs are kept below `2 ^ 32`). -/
def bnot32 (x : Nat) : Nat := 4294967295 - x

def shaCh (e f g : Nat) : Nat := (e &&& f) ^^^ (bnot32 e &&& g)

def shaMaj (a b c : Nat) : Nat := (a &&& b) ^^^ (a &&& c) ^^^ (b &&& c)

def bsig0 (x : Nat) : Nat := rotr32 2 x ^^^ rotr32 13 x ^^^ rotr32 22 x

def bsig1 (x : Nat) : Nat := rotr32 6 x ^^^ rotr32 11 x ^^^ rotr32 25 x

def ssig0 (x : Nat) : Nat := rotr32 7 x ^^^ rotr32 18 x ^^^ (x >>> 3)

def ssig1 (x : Nat) : Nat := rotr32 17 x ^^^ rotr32 19 x ^^^ (x >>> 10)

/-- The 64 round constants of SHA-256 (FIPS 180-4), in decimal. -/
def shaK : List Nat :=
  [1116352408, 1899447441, 3049323471, 3921009573, 961987163, 1508970993,
   2453635748, 2870763221, 3624381080, 310598401, 607225278, 1426881987,
   1925078388, 2162078206, 2614888103, 3248222580, 3835390401, 4022224774,
   264347078, 604807628, 770255983, 1249150122, 1555081692, 1996064986,
   2554220882, 2821834349, 2952996808, 3210313671, 3336571891, 3584528711,
   113926993, 338241895, 666307205, 773529912, 1294757372, 1396182291,
   1695183700, 1986661051, 2177026350, 2456956037, 2730485921, 2820302411,
   3259730800, 3345764771, 3516065817, 3600352804, 4094571909, 275423344,
   430227734, 506948616, 659060556, 883997877, 958139571, 1322822218,
   1537002063, 1747873779, 1955562222, 2024104815, 2227730452, 2361852424,
   2428436474, 2756734187, 3204031479, 3329325298]

structure Hash8 where
  a : Nat
  b : Nat
  c : Nat
  d : Nat
  e : Nat
  f : Nat
  g : Nat
  h : Nat
  deriving DecidableEq, Repr

/-- The initial hash state of SHA-256 (FIPS 180-4), in decimal. -/
def shaH0 : Hash8 :=
  ⟨1779033703, 3144134277, 1013904242, 2773480762,
   1359893119, 2600822924, 528734635, 1541459225⟩

/-- Extend the 16 block words to the 64-word message schedule (fuel 48). -/
def extendW (ws : List Nat) : Nat → List Nat
  | 0 => ws
  | fuel + 1 =>
    let i := ws.length
    let w := w32 (ssig1 (ws.getD (i - 2) 0) + ws.getD (i - 7) 0 +
                  ssig0 (ws.getD (i - 15) 0) + ws.getD (i - 16) 0)
    extendW (ws ++ [w]) fuel

def shaRound (st : Hash8) (kw : Nat × Nat) : Hash8 :=
  let t1 := w32 (st.h + bsig1 st.e + shaCh st.e st.f st.g + kw.1 + kw.2)
  let t2 := w32 (bsig0 st.a + shaMaj st.a st.b st.c)
  ⟨w32 (t1 + t2), st.a, st.b, st.c, w32 (st.d + t1), st.e, st.f, st.g⟩

def compressBlock (hs : Hash8) (block : List Nat) : Hash8 :=
  let ws := extendW block 48
  let st := (List.zip shaK ws).foldl shaRound hs
  ⟨w32 (hs.a + st.a), w32 (hs.b + st.b), w32 (hs.c + st.c), w32 (hs.d + st.d),
   w32 (hs.e + st.e), w32 (hs.f + st.f), w32 (hs.g + st.g), w32 (hs.h + st.h)⟩

/-- Big-endian 4-byte groups to 32-bit words. -/
def bytesToWords : List Nat → List Nat
  | b0 :: b1 :: b2 :: b3 :: rest => (b0 * 16777216 + b1 * 65536 + b2 * 256 + b3) :: bytesToWords rest
  | _ => []

/-- Chunk a word list into 16-word blocks (structural fuel recursion). -/
def toBlocks : Nat → List Nat → List (List Nat)
  | 0, _ => []
  | _, [] => []
  | fuel + 1, ws => ws.take 16 :: toBlocks fuel (ws.drop 16)

/-- SHA-256 of a byte list, as the 8-word state. -/
def sha256words (bytes : List Nat) : List Nat :=
  let len := bytes.length
  let padZeros := (119 - len % 64) % 64
  let bitLen := len * 8
  let lenBytes := [bitLen / 2 ^ 56 % 256, bitLen / 2 ^ 48 % 256, bitLen / 2 ^ 40 % 256,
                   bitLen / 2 ^ 32 % 256, bitLen / 2 ^ 24 % 256, bitLen / 2 ^ 16 % 256,
                   bitLen / 2 ^ 8 % 256, bitLen % 256]
  let padded := bytes ++ 128 :: List.replicate padZeros 0 ++ lenBytes
  let blocks := toBlocks padded.length (bytesToWords padded)
  let hs := blocks.foldl compressBlock shaH0
  [hs.a, hs.b, hs.c, hs.d, hs.e, hs.f, hs.g, hs.h]

def hexChar (n : Nat) : Char := if n < 10 then Char.ofNat (48 + n) else Char.ofNat (87 + n)

def wordHex (w : Nat) : List Char :=
  [hexChar (w / 2 ^ 28 % 16), hexChar (w / 2 ^ 24 % 16), hexChar (w / 2 ^ 20 % 16),
   hexChar (w / 2 ^ 16 % 16), hexChar (w / 2 ^ 12 % 16), hexChar (w / 2 ^ 8 % 16),
   hexChar (w / 2 ^ 4 % 16), hexChar (w % 16)]

/-- Lowercase hex digest of SHA-256, matching `format!("{:x}", hasher.finalize())`. -/
def sha256hex (bytes : List Nat) : String :=
  String.mk ((sha256words bytes).foldr (fun w acc => wordHex w ++ acc) [])

/-- UTF-8 bytes of a string; all strings handled by the contract model are ASCII,
where the UTF-8 encoding is the code-point sequence. -/
def strBytes (s : String) : List Nat := s.data.map Char.toNat

/-- Sanity anchor against the FIPS 180-4 test vector for "abc". -/
theorem sha256hex_abc :
    sha256hex (strBytes "abc") =
      "ba7816bf8f01cfea414140de5dae2223b00361a396177a9cb410ff61f20015ad" := by
  rfl

/-! ### Errors (`error.rs`), restricted to the variants the entry points produce -/

inductive ContractError where
  | Std (msg : String)
  | Unauthorized (reason : String)
  | OnlyTaker
  | OnlyAccessTokenHolder
  | InvalidImmutables (reason : String)
  | InvalidSecret
  | TimelockNotExpired (stage : String)
  | RescueDelayNotMet (current required : Nat)
  | EscrowNotFound (escrow_id : Nat)
  | EscrowAlreadyExists (hash : String)
  | EscrowNotActive (escrow_id : Nat)
  | InsufficientBalance (required available : String)
  | InvalidAmount (amount : String)
  deriving DecidableEq, Repr

/-! ### `state.rs`: escrow type, timelock stages, packed timelocks, immutables -/

inductive EscrowType where
  | Source
  | Destination
  deriving DecidableEq, Repr

inductive TimelockStage where
  | SrcWithdrawal
  | SrcPublicWithdrawal
  | SrcCancellation
  | SrcPublicCancellation
  | DstWithdrawal
  | DstPublicWithdrawal
  | DstCancellation
  deriving DecidableEq, Repr

def EscrowType.is_source : EscrowType → Bool
  | .Source => true
  | .Destination => false

def EscrowType.is_destination : EscrowType → Bool
  | .Source => false
  | .Destination => true

/-- Rust `EscrowType::get_withdrawal_stage`. -/
def EscrowType.get_withdrawal_stage : EscrowType → TimelockStage
  | .Source => .SrcWithdrawal
  | .Destination => .DstWithdrawal

/-- Rust `EscrowType::get_cancellation_stage`. -/
def EscrowType.get_cancellation_stage : EscrowType → TimelockStage
  | .Source => .SrcCancellation
  | .Destination => .DstCancellation

/-- Rust `EscrowType::get_public_withdrawal_stage`. -/
def EscrowType.get_public_withdrawal_stage : EscrowType → TimelockStage
  | .Source => .SrcPublicWithdrawal
  | .Destination => .DstPublicWithdrawal

/-- Rust `EscrowType::get_public_cancellation_stage` (Destination has none). -/
def EscrowType.get_public_cancellation_stage : EscrowType → Option TimelockStage
  | .Source => some .SrcPublicCancellation
  | .Destination => none

/-- The `format!("{:?}", stage)` debug string used in `TimelockNotExpired`. -/
def TimelockStage.debugStr : TimelockStage → String
  | .SrcWithdrawal => "SrcWithdrawal"
  | .SrcPublicWithdrawal => "SrcPublicWithdrawal"
  | .SrcCancellation => "SrcCancellation"
  | .SrcPublicCancellation => "SrcPublicCancellation"
  | .DstWithdrawal => "DstWithdrawal"
  | .DstPublicWithdrawal => "DstPublicWithdrawal"
  | .DstCancellation => "DstCancellation"

/-- Bit-packed timelocks (`PackedTimelocks`): `source_data` holds
`deployed_at` in bits 0-31 and the four source hour-offsets in bits 32-63;
`destination_data` holds the three destination hour-offsets in bits 0-23.
Both words are `u64` values, here `Nat` kept below `2 ^ 64` by construction. -/
structure PackedTimelocks where
  source_data : Nat
  destination_data : Nat
  deriving DecidableEq, Repr

/-- Rust `PackedTimelocks::new`: pack `deployed_at : u32` and seven `u8` offsets. -/
def PackedTimelocks.new (deployed_at src_withdrawal src_public_withdrawal src_cancellation
    src_public_cancellation dst_withdrawal dst_public_withdrawal dst_cancellation : Nat) :
    PackedTimelocks :=
  { source_data := deployed_at ||| (src_withdrawal <<< 32) ||| (src_public_withdrawal <<< 40) |||
      (src_cancellation <<< 48) ||| (src_public_cancellation <<< 56),
    destination_data := dst_withdrawal ||| (dst_public_withdrawal <<< 8) |||
      (dst_cancellation <<< 16) }

/-- Rust `PackedTimelocks::deployed_at`: `source_data & 0xFFFFFFFF`. -/
def PackedTimelocks.deployed_at (t : PackedTimelocks) : Nat :=
  t.source_data &&& 4294967295

/-- Rust `PackedTimelocks::get`: extract the 8-bit offset of a stage. -/
def PackedTimelocks.get (t : PackedTimelocks) : TimelockStage → Nat
  | .SrcWithdrawal => (t.source_data >>> 32) &&& 255
  | .SrcPublicWithdrawal => (t.source_data >>> 40) &&& 255
  | .SrcCancellation => (t.source_data >>> 48) &&& 255
  | .SrcPublicCancellation => (t.source_data >>> 56) &&& 255
  | .DstWithdrawal => t.destination_data &&& 255
  | .DstPublicWithdrawal => (t.destination_data >>> 8) &&& 255
  | .DstCancellation => (t.destination_data >>> 16) &&& 255

/-- Rust `PackedTimelocks::get_stage_time`: `deployed_at + hours * 3600`. -/
def PackedTimelocks.get_stage_time (t : PackedTimelocks) (stage : TimelockStage) : Nat :=
  t.deployed_at + t.get stage * 3600

/-- Rust `PackedTimelocks::is_within_stage`: `current_time >= stage_time`. -/
def PackedTimelocks.is_within_stage (t : PackedTimelocks) (current_time : Nat)
    (stage : TimelockStage) : Bool :=
  t.get_stage_time stage ≤ current_time

/-- Rust `PackedTimelocks::rescue_start`: `deployed_at + rescue_delay`. -/
def PackedTimelocks.rescue_start (t : PackedTimelocks) (rescue_delay : Nat) : Nat :=
  t.deployed_at + rescue_delay

/-- Rust `PackedTimelocks::is_rescue_available`. -/
def PackedTimelocks.is_rescue_available (t : PackedTimelocks) (current_time rescue_delay : Nat) :
    Bool :=
  t.rescue_start rescue_delay ≤ current_time

/-- Rust `PackedTimelocks::validate`: nonzero deployment timestamp and strictly
increasing offsets on each chain side; errors are `StdError::generic_err`. -/
def PackedTimelocks.validate (t : PackedTimelocks) : Except String Unit :=
  if t.deployed_at = 0 then
    .error "Deployed timestamp cannot be zero"
  else if t.get .SrcPublicWithdrawal ≤ t.get .SrcWithdrawal then
    .error "Source public withdrawal must be after private withdrawal"
  else if t.get .SrcCancellation ≤ t.get .SrcPublicWithdrawal then
    .error "Source cancellation must be after public withdrawal"
  else if t.get .SrcPublicCancellation ≤ t.get .SrcCancellation then
    .error "Source public cancellation must be after private cancellation"
  else if t.get .DstPublicWithdrawal ≤ t.get .DstWithdrawal then
    .error "Destination public withdrawal must be after private withdrawal"
  else if t.get .DstCancellation ≤ t.get .DstPublicWithdrawal then
    .error "Destination cancellation must be after public withdrawal"
  else
    .ok ()

/-- Rust `Immutables` (`state.rs`); addresses (`Addr`) are plain strings, and
`Uint128` amounts are `Nat`. -/
structure Immutables where
  order_hash : String
  hashlock : String
  maker : String
  taker : String
  token : String
  amount : Nat
  safety_deposit : Nat
  timelocks : PackedTimelocks
  deriving DecidableEq, Repr

/-- Rust `Immutables::hash`: SHA-256 hex digest of the separator-free
concatenation of all fields (numeric fields via their decimal strings). -/
def Immutables.hash (im : Immutables) : String :=
  sha256hex (strBytes im.order_hash ++ strBytes im.hashlock ++ strBytes im.maker ++
    strBytes im.taker ++ strBytes im.token ++ strBytes (Nat.repr im.amount) ++
    strBytes (Nat.repr im.safety_deposit) ++ strBytes (Nat.repr im.timelocks.source_data) ++
    strBytes (Nat.repr im.timelocks.destination_data))

/-- Rust `Immutables::validate`. -/
def Immutables.validate (im : Immutables) : Except String Unit :=
  if im.order_hash = "" then
    .error "Order hash cannot be empty"
  else if im.hashlock = "" then
    .error "Hashlock cannot be empty"
  else if im.amount = 0 then
    .error "Amount cannot be zero"
  else if im.safety_deposit = 0 then
    .error "Safety deposit cannot be zero"
  else
    im.timelocks.validate

/-- Rust `DstImmutablesComplement`. -/
structure DstImmutablesComplement where
  maker : String
  amount : Nat
  token : String
  safety_deposit : Nat
  chain_id : String
  deriving DecidableEq, Repr

/-- Rust `EscrowInfo`; `created_at` is the block time in seconds. -/
structure EscrowInfo where
  immutables : Immutables
  dst_complement : Option DstImmutablesComplement
  escrow_type : EscrowType
  is_active : Bool
  created_at : Nat
  deriving DecidableEq, Repr

/-- Rust `EscrowState`. -/
structure EscrowState where
  escrow_info : EscrowInfo
  balance : Nat
  native_balance : Nat
  deriving DecidableEq, Repr

/-- Rust `Config` (`state.rs`). -/
structure Config where
  owner : String
  access_token : String
  rescue_delay : Nat
  factory : String
  deriving DecidableEq, Repr

/-- Rust `FactoryConfig`.  Its declaration is not under `src/`; the fields are
pinned by its construction in `factory.rs::execute_instantiate_factory`. -/
structure FactoryConfig where
  owner : String
  escrow_contract : String
  access_token : String
  rescue_delay : Nat
  min_safety_deposit : Nat
  max_safety_deposit : Nat
  creation_fee : Nat
  deriving DecidableEq, Repr

/-- Rust `EscrowCreationParams`.  Its declaration is not under `src/`; the fields
are pinned by its uses in `factory.rs` and `msg.rs`. -/
structure EscrowCreationParams where
  order_hash : String
  hashlock : String
  maker : String
  taker : String
  token : String
  amount : Nat
  safety_deposit : Nat
  timelocks : PackedTimelocks
  escrow_type : EscrowType
  dst_chain_id : String
  dst_token : String
  dst_amount : Nat
  deriving DecidableEq, Repr

inductive CreationStatus where
  | Pending
  | Created
  | Cancelled
  deriving DecidableEq, Repr

/-- Rust `EscrowCreationRequest`; fields pinned by its construction in `factory.rs`. -/
structure EscrowCreationRequest where
  params : EscrowCreationParams
  created_at : Nat
  status : CreationStatus
  escrow_address : Option String
  deriving DecidableEq, Repr

/-! ### Storage, environment, messages -/

/-- The contract storage: `CONFIG`, `FACTORY_CONFIG`, `ESCROW_COUNTER`,
`ESCROWS`, `ESCROW_BY_HASH`, `ESCROW_ADDRESSES`, `ESCROW_CREATION_REQUESTS`. -/
structure Storage where
  config : Option Config
  factory_config : Option FactoryConfig
  escrow_counter : Option Nat
  escrows : List (Nat × EscrowState)
  escrow_by_hash : List (String × Nat)
  escrow_addresses : List (String × String)
  creation_requests : List (String × EscrowCreationRequest)
  deriving DecidableEq, Repr

structure Coin where
  denom : String
  amount : Nat
  deriving DecidableEq, Repr

structure MessageInfo where
  sender : String
  funds : List Coin
  deriving DecidableEq, Repr

/-- Execution `Env`: block time in seconds and the contract address. -/
structure Env where
  block_time : Nat
  contract_address : String
  deriving DecidableEq, Repr

/-- Fund-transfer instructions emitted by the entry points: a native bank
send of `coins(amount, denom)`, or a CW20 `Transfer` execute message. -/
inductive CosmosMsg where
  | BankSend (to_address : String) (amount : Nat) (denom : String)
  | Cw20Transfer (contract_addr : String) (recipient : String) (amount : Nat)
  deriving DecidableEq, Repr

/-- The transfer-message payload of a `Response` (event attributes elided:
the claims concern messages and storage only). -/
structure Response where
  messages : List CosmosMsg
  deriving DecidableEq, Repr

/-- Model of `info.funds.iter().find(|c| c.denom == "uatom").map(|c| c.amount).unwrap_or_default()`. -/
def sentUatom (funds : List Coin) : Nat :=
  match funds.find? (fun c => c.denom == "uatom") with
  | some c => c.amount
  | none => 0

/-- Rust `get_next_escrow_id` (`state.rs`): `ESCROW_COUNTER.load.unwrap_or(0) + 1`,
saved back and returned. -/
def get_next_escrow_id (store : Storage) : Storage × Nat :=
  let current_id := store.escrow_counter.getD 0
  let next_id := current_id + 1
  ({ store with escrow_counter := some next_id }, next_id)

/-! ### `execute.rs`: terminal escrow operations

Each entry point returns the storage as it stands when the function returns
(on an early error return no write has happened yet, except where the source
itself writes first) together with the call's result. -/

/-- The main-balance transfer block shared by all terminal operations in
`execute.rs`: a bank send of `uatom` for the native token (`token == ""`),
else a CW20 transfer, and nothing when the balance is zero. -/
def transferMessages (token recipient : String) (balance : Nat) : List CosmosMsg :=
  if 0 < balance then
    if token = "" then [.BankSend recipient balance "uatom"]
    else [.Cw20Transfer token recipient balance]
  else []

/-- The safety-deposit transfer block shared by all terminal operations in
`execute.rs`: a bank send of the native balance to the given recipient. -/
def depositMessages (recipient : String) (native_balance : Nat) : List CosmosMsg :=
  if 0 < native_balance then [.BankSend recipient native_balance "uatom"] else []

/-- Mark an escrow record inactive (`escrow_state.escrow_info.is_active = false`). -/
def setInactive (st : EscrowState) : EscrowState :=
  { st with escrow_info := { st.escrow_info with is_active := false } }

/-- Rust `execute_withdraw_src`. -/
def execute_withdraw_src (store : Storage) (env : Env) (info : MessageInfo)
    (escrow_id : Nat) (secret : String) : Storage × Except ContractError Response :=
  match mapGet store.escrows escrow_id with
  | none => (store, .error (.EscrowNotFound escrow_id))
  | some escrow_state =>
    if escrow_state.escrow_info.escrow_type.is_source = false then
      (store, .error (.InvalidImmutables "This operation is only valid for source escrows"))
    else if info.sender ≠ escrow_state.escrow_info.immutables.taker then
      (store, .error .OnlyTaker)
    else if escrow_state.escrow_info.is_active = false then
      (store, .error (.EscrowNotActive escrow_id))
    else
      let immutables := escrow_state.escrow_info.immutables
      if sha256hex (strBytes secret) ≠ immutables.hashlock then
        (store, .error .InvalidSecret)
      else
        let stage := escrow_state.escrow_info.escrow_type.get_withdrawal_stage
        if immutables.timelocks.is_within_stage env.block_time stage = false then
          (store, .error (.TimelockNotExpired stage.debugStr))
        else
          ({ store with escrows := mapSet store.escrows escrow_id (setInactive escrow_state) },
           .ok { messages := transferMessages immutables.token immutables.taker
                   escrow_state.balance ++
                 depositMessages info.sender escrow_state.native_balance })

/-- Rust `execute_withdraw_dst`. -/
def execute_withdraw_dst (store : Storage) (env : Env) (info : MessageInfo)
    (escrow_id : Nat) (secret : String) : Storage × Except ContractError Response :=
  match mapGet store.escrows escrow_id with
  | none => (store, .error (.EscrowNotFound escrow_id))
  | some escrow_state =>
    if escrow_state.escrow_info.escrow_type.is_destination = false then
      (store, .error (.InvalidImmutables "This operation is only valid for destination escrows"))
    else if info.sender ≠ escrow_state.escrow_info.immutables.taker then
      (store, .error .OnlyTaker)
    else if escrow_state.escrow_info.is_active = false then
      (store, .error (.EscrowNotActive escrow_id))
    else
      let immutables := escrow_state.escrow_info.immutables
      if sha256hex (strBytes secret) ≠ immutables.hashlock then
        (store, .error .InvalidSecret)
      else
        let stage := escrow_state.escrow_info.escrow_type.get_withdrawal_stage
        if immutables.timelocks.is_within_stage env.block_time stage = false then
          (store, .error (.TimelockNotExpired stage.debugStr))
        else
          ({ store with escrows := mapSet store.escrows escrow_id (setInactive escrow_state) },
           .ok { messages := transferMessages immutables.token immutables.maker
                   escrow_state.balance ++
                 depositMessages info.sender escrow_state.native_balance })

/-- Rust `execute_cancel_src`. -/
def execute_cancel_src (store : Storage) (env : Env) (info : MessageInfo)
    (escrow_id : Nat) : Storage × Except ContractError Response :=
  match mapGet store.escrows escrow_id with
  | none => (store, .error (.EscrowNotFound escrow_id))
  | some escrow_state =>
    if escrow_state.escrow_info.escrow_type.is_source = false then
      (store, .error (.InvalidImmutables "This operation is only valid for source escrows"))
    else if info.sender ≠ escrow_state.escrow_info.immutables.taker then
      (store, .error .OnlyTaker)
    else if escrow_state.escrow_info.is_active = false then
      (store, .error (.EscrowNotActive escrow_id))
    else
      let immutables := escrow_state.escrow_info.immutables
      let stage := escrow_state.escrow_info.escrow_type.get_cancellation_stage
      if immutables.timelocks.is_within_stage env.block_time stage = false then
        (store, .error (.TimelockNotExpired stage.debugStr))
      else
        ({ store with escrows := mapSet store.escrows escrow_id (setInactive escrow_state) },
         .ok { messages := transferMessages immutables.token immutables.maker
                 escrow_state.balance ++
               depositMessages info.sender escrow_state.native_balance })

/-- Rust `execute_cancel_dst`. -/
def execute_cancel_dst (store : Storage) (env : Env) (info : MessageInfo)
    (escrow_id : Nat) : Storage × Except ContractError Response :=
  match mapGet store.escrows escrow_id with
  | none => (store, .error (.EscrowNotFound escrow_id))
  | some escrow_state =>
    if escrow_state.escrow_info.escrow_type.is_destination = false then
      (store, .error (.InvalidImmutables "This operation is only valid for destination escrows"))
    else if info.sender ≠ escrow_state.escrow_info.immutables.taker then
      (store, .error .OnlyTaker)
    else if escrow_state.escrow_info.is_active = false then
      (store, .error (.EscrowNotActive escrow_id))
    else
      let immutables := escrow_state.escrow_info.immutables
      let stage := escrow_state.escrow_info.escrow_type.get_cancellation_stage
      if immutables.timelocks.is_within_stage env.block_time stage = false then
        (store, .error (.TimelockNotExpired stage.debugStr))
      else
        ({ store with escrows := mapSet store.escrows escrow_id (setInactive escrow_state) },
         .ok { messages := transferMessages immutables.token immutables.taker
                 escrow_state.balance ++
               depositMessages info.sender escrow_state.native_balance })

/-- Rust `execute_public_withdraw_src`: access-token-holder gated; no secret
check; both the balance and the safety deposit go to the actual caller. -/
def execute_public_withdraw_src (store : Storage) (env : Env) (info : MessageInfo)
    (escrow_id : Nat) : Storage × Except ContractError Response :=
  match mapGet store.escrows escrow_id with
  | none => (store, .error (.EscrowNotFound escrow_id))
  | some escrow_state =>
    if escrow_state.escrow_info.escrow_type.is_source = false then
      (store, .error (.InvalidImmutables "This operation is only valid for source escrows"))
    else
      match store.config with
      | none => (store, .error (.Std "config not found"))
      | some config =>
        if info.sender ≠ config.access_token then
          (store, .error .OnlyAccessTokenHolder)
        else if escrow_state.escrow_info.is_active = false then
          (store, .error (.EscrowNotActive escrow_id))
        else
          let immutables := escrow_state.escrow_info.immutables
          let stage := escrow_state.escrow_info.escrow_type.get_public_withdrawal_stage
          if immutables.timelocks.is_within_stage env.block_time stage = false then
            (store, .error (.TimelockNotExpired stage.debugStr))
          else
            ({ store with escrows := mapSet store.escrows escrow_id (setInactive escrow_state) },
             .ok { messages := transferMessages immutables.token info.sender
                     escrow_state.balance ++
                   depositMessages info.sender escrow_state.native_balance })

/-- Rust `execute_public_withdraw_dst`: access-token-holder gated; no secret
check; both the balance and the safety deposit go to the actual caller. -/
def execute_public_withdraw_dst (store : Storage) (env : Env) (info : MessageInfo)
    (escrow_id : Nat) : Storage × Except ContractError Response :=
  match mapGet store.escrows escrow_id with
  | none => (store, .error (.EscrowNotFound escrow_id))
  | some escrow_state =>
    if escrow_state.escrow_info.escrow_type.is_destination = false then
      (store, .error (.InvalidImmutables "This operation is only valid for destination escrows"))
    else
      match store.config with
      | none => (store, .error (.Std "config not found"))
      | some config =>
        if info.sender ≠ config.access_token then
          (store, .error .OnlyAccessTokenHolder)
        else if escrow_state.escrow_info.is_active = false then
          (store, .error (.EscrowNotActive escrow_id))
        else
          let immutables := escrow_state.escrow_info.immutables
          let stage := escrow_state.escrow_info.escrow_type.get_public_withdrawal_stage
          if immutables.timelocks.is_within_stage env.block_time stage = false then
            (store, .error (.TimelockNotExpired stage.debugStr))
          else
            ({ store with escrows := mapSet store.escrows escrow_id (setInactive escrow_state) },
             .ok { messages := transferMessages immutables.token info.sender
                     escrow_state.balance ++
                   depositMessages info.sender escrow_state.native_balance })

/-- Rust `execute_public_cancel_src` (Destination has no public cancel). -/
def execute_public_cancel_src (store : Storage) (env : Env) (info : MessageInfo)
    (escrow_id : Nat) : Storage × Except ContractError Response :=
  match mapGet store.escrows escrow_id with
  | none => (store, .error (.EscrowNotFound escrow_id))
  | some escrow_state =>
    if escrow_state.escrow_info.escrow_type.is_source = false then
      (store, .error (.InvalidImmutables "This operation is only valid for source escrows"))
    else
      match store.config with
      | none => (store, .error (.Std "config not found"))
      | some config =>
        if info.sender ≠ config.access_token then
          (store, .error .OnlyAccessTokenHolder)
        else if escrow_state.escrow_info.is_active = false then
          (store, .error (.EscrowNotActive escrow_id))
        else
          let immutables := escrow_state.escrow_info.immutables
          match escrow_state.escrow_info.escrow_type.get_public_cancellation_stage with
          | none =>
            (store, .error (.InvalidImmutables "Source escrow must support public cancellation"))
          | some stage =>
            if immutables.timelocks.is_within_stage env.block_time stage = false then
              (store, .error (.TimelockNotExpired stage.debugStr))
            else
              ({ store with
                  escrows := mapSet store.escrows escrow_id (setInactive escrow_state) },
               .ok { messages := transferMessages immutables.token immutables.maker
                       escrow_state.balance ++
                     depositMessages info.sender escrow_state.native_balance })

/-- Rust `execute_rescue`: taker-only sweep of both balances after
`rescue_start(config.rescue_delay)`, with no hashlock or stage check. -/
def execute_rescue (store : Storage) (env : Env) (info : MessageInfo)
    (escrow_id : Nat) : Storage × Except ContractError Response :=
  match mapGet store.escrows escrow_id with
  | none => (store, .error (.EscrowNotFound escrow_id))
  | some escrow_state =>
    if info.sender ≠ escrow_state.escrow_info.immutables.taker then
      (store, .error .OnlyTaker)
    else if escrow_state.escrow_info.is_active = false then
      (store, .error (.EscrowNotActive escrow_id))
    else
      let immutables := escrow_state.escrow_info.immutables
      match store.config with
      | none => (store, .error (.Std "config not found"))
      | some config =>
        let rescue_start := immutables.timelocks.rescue_start config.rescue_delay
        if env.block_time < rescue_start then
          (store, .error (.RescueDelayNotMet env.block_time rescue_start))
        else
          ({ store with escrows := mapSet store.escrows escrow_id (setInactive escrow_state) },
           .ok { messages := transferMessages immutables.token info.sender
                   escrow_state.balance ++
                 depositMessages info.sender escrow_state.native_balance })

/-! ### Creation entry points

Caller-identity/address validation is an external collaborator per the
spec's scope, so `deps.api.addr_validate` is modelled as the identity on
the plain address strings. -/

/-- The immutables built by every creation path: `deployed_at` is the block
time truncated `as u32`, and the seven offsets are re-read from the
caller-supplied packed timelocks via `get`. -/
def mkImmutables (block_time : Nat) (order_hash hashlock maker taker token : String)
    (amount safety_deposit : Nat) (timelocks : PackedTimelocks) : Immutables :=
  { order_hash := order_hash, hashlock := hashlock, maker := maker, taker := taker,
    token := token, amount := amount, safety_deposit := safety_deposit,
    timelocks := PackedTimelocks.new (block_time % 4294967296)
      (timelocks.get .SrcWithdrawal) (timelocks.get .SrcPublicWithdrawal)
      (timelocks.get .SrcCancellation) (timelocks.get .SrcPublicCancellation)
      (timelocks.get .DstWithdrawal) (timelocks.get .DstPublicWithdrawal)
      (timelocks.get .DstCancellation) }

/-- Rust `execute_create_escrow` (`execute.rs`): the escrow contract's own
creation entry point, callable only by the configured factory. -/
def escrow_execute_create_escrow (store : Storage) (env : Env) (info : MessageInfo)
    (order_hash hashlock maker taker token : String) (amount safety_deposit : Nat)
    (timelocks : PackedTimelocks) (escrow_type : EscrowType)
    (dst_chain_id dst_token : String) (dst_amount : Nat) :
    Storage × Except ContractError Response :=
  match store.config with
  | none => (store, .error (.Std "config not found"))
  | some config =>
    if info.sender ≠ config.factory then
      (store, .error .OnlyAccessTokenHolder)
    else if order_hash = "" ∨ hashlock = "" then
      (store, .error (.InvalidImmutables "Order hash and hashlock cannot be empty"))
    else if amount = 0 ∨ safety_deposit = 0 then
      (store, .error (.InvalidAmount "Amount and safety deposit must be greater than zero"))
    else
      let total_required := amount + safety_deposit
      let sent_amount := sentUatom info.funds
      if sent_amount ≠ total_required then
        (store, .error (.InsufficientBalance (Nat.repr total_required) (Nat.repr sent_amount)))
      else
        let immutables := mkImmutables env.block_time order_hash hashlock maker taker token
          amount safety_deposit timelocks
        match immutables.validate with
        | .error e => (store, .error (.Std e))
        | .ok _ =>
          let escrow_hash := immutables.hash
          if (mapGet store.escrow_by_hash escrow_hash).isSome then
            (store, .error (.EscrowAlreadyExists escrow_hash))
          else
            match store.escrow_counter with
            | none => (store, .error (.Std "escrow counter not found"))
            | some counter =>
              let escrow_id := counter + 1
              let store1 := { store with escrow_counter := some escrow_id }
              let dst_complement : Option DstImmutablesComplement :=
                if escrow_type.is_source then
                  some { maker := maker, amount := dst_amount, token := dst_token,
                         safety_deposit := safety_deposit, chain_id := dst_chain_id }
                else none
              let escrow_info : EscrowInfo :=
                { immutables := immutables, dst_complement := dst_complement,
                  escrow_type := escrow_type, is_active := true,
                  created_at := env.block_time }
              let escrow_state : EscrowState :=
                { escrow_info := escrow_info, balance := amount,
                  native_balance := safety_deposit }
              ({ store1 with
                  escrows := mapSet store1.escrows escrow_id escrow_state,
                  escrow_by_hash := mapSet store1.escrow_by_hash escrow_hash escrow_id },
               .ok { messages := [] })

/-! ### `factory.rs` and its helpers

`validate_escrow_creation`, `compute_escrow_address`, `escrow_exists_by_hash`
and `save_escrow` are declared in code of this repository that is not under
`src/` (only their callers in `factory.rs`/`query.rs` are); they are
modelled from the spec below. -/

/-- Modelled from the spec: `compute_escrow_address` is missing from `src/`;
per the spec's design notes it is "a digest of contract address + order_hash
+ hashlock + salt": a pure function of those four inputs producing a stable
lookup key. -/
def compute_escrow_address (contract order_hash hashlock salt : String) : String :=
  sha256hex (strBytes contract ++ strBytes order_hash ++ strBytes hashlock ++ strBytes salt)

/-- Modelled from the spec: `validate_escrow_creation` is missing from
`src/`; per the spec's Create operation it "validates Immutables": non-empty
order_hash/hashlock, positive amount and safety_deposit, and a valid
timelock schedule.  (Its `(&params, &factory_config)` signature shows it
cannot inspect the funds sent with the call.) -/
def validate_escrow_creation (params : EscrowCreationParams) (_factory_config : FactoryConfig) :
    Except ContractError Unit :=
  if params.order_hash = "" then
    .error (.InvalidImmutables "Order hash cannot be empty")
  else if params.hashlock = "" then
    .error (.InvalidImmutables "Hashlock cannot be empty")
  else if params.amount = 0 then
    .error (.InvalidAmount "Amount cannot be zero")
  else if params.safety_deposit = 0 then
    .error (.InvalidAmount "Safety deposit cannot be zero")
  else
    match params.timelocks.validate with
    | .error e => .error (.Std e)
    | .ok _ => .ok ()

/-- Modelled from the spec: `escrow_exists_by_hash` is missing from `src/`;
it is the membership test of the persistence layer's "secondary index
EscrowIdentity-hash → id". -/
def escrow_exists_by_hash (store : Storage) (hash : String) : Bool :=
  (mapGet store.escrow_by_hash hash).isSome

/-- Modelled from the spec: `save_escrow` is missing from `src/`; it stores
the record under its id and maintains the secondary index
EscrowIdentity-hash → id. -/
def save_escrow (store : Storage) (escrow_id : Nat) (st : EscrowState) : Storage :=
  { store with
      escrows := mapSet store.escrows escrow_id st,
      escrow_by_hash := mapSet store.escrow_by_hash st.escrow_info.immutables.hash escrow_id }

/-- Rust `execute_create_escrow` (`factory.rs`): creation with a deterministic
address.  Note the order of effects in the source: the creation request and
the address mapping are saved before `immutables.validate()` and the
duplicate-by-hash check run. -/
def factory_execute_create_escrow (store : Storage) (env : Env) (info : MessageInfo)
    (params : EscrowCreationParams) (salt : String) :
    Storage × Except ContractError Response :=
  match store.factory_config with
  | none => (store, .error (.Std "factory config not found"))
  | some factory_config =>
    match validate_escrow_creation params factory_config with
    | .error e => (store, .error e)
    | .ok _ =>
      let sent_fee := sentUatom info.funds
      if sent_fee < factory_config.creation_fee then
        (store, .error (.InsufficientBalance (Nat.repr factory_config.creation_fee)
          (Nat.repr sent_fee)))
      else
        let escrow_address := compute_escrow_address env.contract_address params.order_hash
          params.hashlock salt
        if (mapGet store.escrow_addresses escrow_address).isSome then
          (store, .error (.EscrowAlreadyExists escrow_address))
        else
          let creation_request : EscrowCreationRequest :=
            { params := params, created_at := env.block_time, status := .Pending,
              escrow_address := some escrow_address }
          let request_key := params.order_hash ++ ":" ++ params.hashlock
          let store1 := { store with
            creation_requests := mapSet store.creation_requests request_key creation_request }
          let store2 := { store1 with
            escrow_addresses := mapSet store1.escrow_addresses escrow_address
              env.contract_address }
          let immutables := mkImmutables env.block_time params.order_hash params.hashlock
            params.maker params.taker params.token params.amount params.safety_deposit
            params.timelocks
          match immutables.validate with
          | .error e => (store2, .error (.Std e))
          | .ok _ =>
            let escrow_hash := immutables.hash
            if escrow_exists_by_hash store2 escrow_hash then
              (store2, .error (.EscrowAlreadyExists escrow_hash))
            else
              let next := get_next_escrow_id store2
              let store3 := next.1
              let escrow_id := next.2
              let dst_complement : Option DstImmutablesComplement :=
                if params.escrow_type.is_source then
                  some { maker := params.maker, amount := params.dst_amount,
                         token := params.dst_token, safety_deposit := params.safety_deposit,
                         chain_id := params.dst_chain_id }
                else none
              let escrow_info : EscrowInfo :=
                { immutables := immutables, dst_complement := dst_complement,
                  escrow_type := params.escrow_type, is_active := true,
                  created_at := env.block_time }
              let escrow_state : EscrowState :=
                { escrow_info := escrow_info, balance := params.amount,
                  native_balance := params.safety_deposit }
              let store4 := save_escrow store3 escrow_id escrow_state
              let store5 := { store4 with
                creation_requests := mapSet store4.creation_requests request_key
                  { creation_request with status := .Created } }
              (store5, .ok { messages := [] })

/-- The `EscrowCreationParams` assembled inside `execute_handle_post_interaction`
(always a Source escrow). -/
def postInteractionParams (order_hash hashlock maker taker token : String)
    (amount safety_deposit : Nat) (timelocks : PackedTimelocks)
    (dst_chain_id dst_token : String) (dst_amount : Nat) : EscrowCreationParams :=
  { order_hash := order_hash, hashlock := hashlock, maker := maker, taker := taker,
    token := token, amount := amount, safety_deposit := safety_deposit,
    timelocks := timelocks, escrow_type := .Source, dst_chain_id := dst_chain_id,
    dst_token := dst_token, dst_amount := dst_amount }

/-- Rust `execute_handle_post_interaction` (`factory.rs`): Source-escrow creation
with an exact `amount + safety_deposit` funds check and the salt
`"post_interaction_" ++ order_hash`. -/
def execute_handle_post_interaction (store : Storage) (env : Env) (info : MessageInfo)
    (order_hash hashlock maker taker token : String) (amount safety_deposit : Nat)
    (timelocks : PackedTimelocks) (dst_chain_id dst_token : String) (dst_amount : Nat) :
    Storage × Except ContractError Response :=
  match store.factory_config with
  | none => (store, .error (.Std "factory config not found"))
  | some factory_config =>
    let params := postInteractionParams order_hash hashlock maker taker token amount
      safety_deposit timelocks dst_chain_id dst_token dst_amount
    match validate_escrow_creation params factory_config with
    | .error e => (store, .error e)
    | .ok _ =>
      let total_required := amount + safety_deposit
      let sent_amount := sentUatom info.funds
      if sent_amount ≠ total_required then
        (store, .error (.InsufficientBalance (Nat.repr total_required) (Nat.repr sent_amount)))
      else
        let salt := "post_interaction_" ++ order_hash
        let escrow_address := compute_escrow_address env.contract_address params.order_hash
          params.hashlock salt
        if (mapGet store.escrow_addresses escrow_address).isSome then
          (store, .error (.EscrowAlreadyExists escrow_address))
        else
          let creation_request : EscrowCreationRequest :=
            { params := params, created_at := env.block_time, status := .Pending,
              escrow_address := some escrow_address }
          let request_key := params.order_hash ++ ":" ++ params.hashlock
          let store1 := { store with
            creation_requests := mapSet store.creation_requests request_key creation_request }
          let store2 := { store1 with
            escrow_addresses := mapSet store1.escrow_addresses escrow_address
              env.contract_address }
          let immutables := mkImmutables env.block_time params.order_hash params.hashlock
            params.maker params.taker params.token params.amount params.safety_deposit
            params.timelocks
          match immutables.validate with
          | .error e => (store2, .error (.Std e))
          | .ok _ =>
            let escrow_hash := immutables.hash
            if escrow_exists_by_hash store2 escrow_hash then
              (store2, .error (.EscrowAlreadyExists escrow_hash))
            else
              let next := get_next_escrow_id store2
              let store3 := next.1
              let escrow_id := next.2
              let dst_complement : DstImmutablesComplement :=
                { maker := params.maker, amount := params.dst_amount,
                  token := params.dst_token, safety_deposit := params.safety_deposit,
                  chain_id := params.dst_chain_id }
              let escrow_info : EscrowInfo :=
                { immutables := immutables, dst_complement := some dst_complement,
                  escrow_type := .Source, is_active := true, created_at := env.block_time }
              let escrow_state : EscrowState :=
                { escrow_info := escrow_info, balance := params.amount,
                  native_balance := params.safety_deposit }
              let store4 := save_escrow store3 escrow_id escrow_state
              let store5 := { store4 with
                creation_requests := mapSet store4.creation_requests request_key
                  { creation_request with status := .Created } }
              (store5, .ok { messages := [] })

/-- Rust `execute_cancel_creation_request` (`factory.rs`): owner-only, while
the request is still `Pending`. -/
def execute_cancel_creation_request (store : Storage) (_env : Env) (info : MessageInfo)
    (order_hash hashlock : String) : Storage × Except ContractError Response :=
  match store.factory_config with
  | none => (store, .error (.Std "factory config not found"))
  | some factory_config =>
    if info.sender ≠ factory_config.owner then
      (store, .error (.Unauthorized "Only factory owner can cancel creation requests"))
    else
      let request_key := order_hash ++ ":" ++ hashlock
      match mapGet store.creation_requests request_key with
      | none => (store, .error (.EscrowNotFound 0))
      | some creation_request =>
        if creation_request.status ≠ .Pending then
          (store, .error (.InvalidImmutables "Only pending requests can be cancelled"))
        else
          let cancelled := { creation_request with status := CreationStatus.Cancelled }
          ({ store with
              creation_requests := mapSet store.creation_requests request_key cancelled },
           .ok { messages := [] })

/-! ### The eight terminal escrow operations, as one dispatchable type -/

/-- The terminal operations of the escrow state machine, with their
message arguments (`msg.rs`: `WithdrawSrc` … `Rescue`). -/
inductive TerminalOp where
  | withdrawSrc (escrow_id : Nat) (secret : String)
  | withdrawDst (escrow_id : Nat) (secret : String)
  | cancelSrc (escrow_id : Nat)
  | cancelDst (escrow_id : Nat)
  | publicWithdrawSrc (escrow_id : Nat)
  | publicWithdrawDst (escrow_id : Nat)
  | publicCancelSrc (escrow_id : Nat)
  | rescue (escrow_id : Nat)
  deriving DecidableEq, Repr

def TerminalOp.escrowId : TerminalOp → Nat
  | .withdrawSrc i _ => i
  | .withdrawDst i _ => i
  | .cancelSrc i => i
  | .cancelDst i => i
  | .publicWithdrawSrc i => i
  | .publicWithdrawDst i => i
  | .publicCancelSrc i => i
  | .rescue i => i

/-- Dispatch a terminal operation to its entry point (`lib.rs::execute`). -/
def runTerminal (store : Storage) (env : Env) (info : MessageInfo) :
    TerminalOp → Storage × Except ContractError Response
  | .withdrawSrc i s => execute_withdraw_src store env info i s
  | .withdrawDst i s => execute_withdraw_dst store env info i s
  | .cancelSrc i => execute_cancel_src store env info i
  | .cancelDst i => execute_cancel_dst store env info i
  | .publicWithdrawSrc i => execute_public_withdraw_src store env info i
  | .publicWithdrawDst i => execute_public_withdraw_dst store env info i
  | .publicCancelSrc i => execute_public_cancel_src store env info i
  | .rescue i => execute_rescue store env info i

/-! ### Bit-packing lemmas for `PackedTimelocks` -/

theorem lor_shift_eq_add {x y k : Nat} (hx : x < 2 ^ k) : x ||| (y <<< k) = x + y * 2 ^ k := by
  rw [Nat.shiftLeft_eq, Nat.lor_comm, Nat.mul_comm y (2 ^ k),
    ← Nat.mul_add_lt_is_or hx y, Nat.add_comm]

theorem source_data_new (d a b c e : Nat) (hd : d < 2 ^ 32) (ha : a < 2 ^ 8)
    (hb : b < 2 ^ 8) (hc : c < 2 ^ 8) (he : e < 2 ^ 8) :
    d ||| (a <<< 32) ||| (b <<< 40) ||| (c <<< 48) ||| (e <<< 56) =
      d + a * 2 ^ 32 + b * 2 ^ 40 + c * 2 ^ 48 + e * 2 ^ 56 := by
  rw [lor_shift_eq_add hd,
    lor_shift_eq_add (show d + a * 2 ^ 32 < 2 ^ 40 by omega),
    lor_shift_eq_add (show d + a * 2 ^ 32 + b * 2 ^ 40 < 2 ^ 48 by omega),
    lor_shift_eq_add (show d + a * 2 ^ 32 + b * 2 ^ 40 + c * 2 ^ 48 < 2 ^ 56 by omega)]

theorem destination_data_new (f g h : Nat) (hf : f < 2 ^ 8) (hg : g < 2 ^ 8)
    (hh : h < 2 ^ 8) :
    f ||| (g <<< 8) ||| (h <<< 16) = f + g * 2 ^ 8 + h * 2 ^ 16 := by
  rw [lor_shift_eq_add hf, lor_shift_eq_add (show f + g * 2 ^ 8 < 2 ^ 16 by omega)]

theorem and_mask32 (x : Nat) : x &&& 4294967295 = x % 2 ^ 32 := by
  have h : (4294967295 : Nat) = 2 ^ 32 - 1 := by norm_num
  rw [h, Nat.and_pow_two_sub_one_eq_mod]

theorem and_mask8 (x : Nat) : x &&& 255 = x % 2 ^ 8 := by
  have h : (255 : Nat) = 2 ^ 8 - 1 := by norm_num
  rw [h, Nat.and_pow_two_sub_one_eq_mod]

/-- Every extracted stage offset is an 8-bit value. -/
theorem PackedTimelocks.get_lt_256 (t : PackedTimelocks) (s : TimelockStage) :
    t.get s < 256 := by
  cases s <;> simp only [PackedTimelocks.get, and_mask8] <;> exact Nat.mod_lt _ (by norm_num)

/-- Applying `PackedTimelocks::new` then `deployed_at` returns the timestamp verbatim. -/
theorem PackedTimelocks.deployed_at_new (d a b c e f g h : Nat) (hd : d < 2 ^ 32)
    (ha : a < 2 ^ 8) (hb : b < 2 ^ 8) (hc : c < 2 ^ 8) (he : e < 2 ^ 8) :
    (PackedTimelocks.new d a b c e f g h).deployed_at = d := by
  simp only [PackedTimelocks.new, PackedTimelocks.deployed_at,
    source_data_new d a b c e hd ha hb hc he, and_mask32]
  omega

/-- Applying `PackedTimelocks::new` then `get` returns each hour-offset verbatim. -/
theorem PackedTimelocks.get_new (d a b c e f g h : Nat) (hd : d < 2 ^ 32)
    (ha : a < 2 ^ 8) (hb : b < 2 ^ 8) (hc : c < 2 ^ 8) (he : e < 2 ^ 8)
    (hf : f < 2 ^ 8) (hg : g < 2 ^ 8) (hh : h < 2 ^ 8) (s : TimelockStage) :
    (PackedTimelocks.new d a b c e f g h).get s =
      match s with
      | .SrcWithdrawal => a
      | .SrcPublicWithdrawal => b
      | .SrcCancellation => c
      | .SrcPublicCancellation => e
      | .DstWithdrawal => f
      | .DstPublicWithdrawal => g
      | .DstCancellation => h := by
  cases s <;>
    simp only [PackedTimelocks.new, PackedTimelocks.get,
      source_data_new d a b c e hd ha hb hc he, destination_data_new f g h hf hg hh,
      Nat.shiftRight_eq_div_pow, and_mask8] <;>
    omega

/-! ### Concrete fixtures for witnesses and counterexamples -/

namespace Fx

/-- Scenario timelocks: `deployed_at = 1000`, source offsets `(1,2,3,4)` hours,
destination offsets `(1,2,3)` hours. -/
def tlk : PackedTimelocks := PackedTimelocks.new 1000 1 2 3 4 1 2 3

/-- Digest `SHA256("secret")` as lowercase hex. -/
def hashlockS : String := "2bb80d537b1da3e38bd30361aa855686bde0eacd7162fef6a25fe97bf527a25b"

def im0 : Immutables := ⟨"oh", hashlockS, "maker", "taker", "", 500, 100, tlk⟩

def cfg0 : Config := ⟨"owner", "access", 86400, "factory"⟩

def fcfg0 : FactoryConfig := ⟨"owner", "factory", "access", 86400, 100, 10000, 10⟩

def srcSt : EscrowState := ⟨⟨im0, none, .Source, true, 1000⟩, 500, 100⟩

def dstSt : EscrowState := ⟨⟨im0, none, .Destination, true, 1000⟩, 500, 100⟩

def inactiveSt : EscrowState := ⟨⟨im0, none, .Source, false, 1000⟩, 500, 100⟩

/-- Storage holding one active Source escrow under id 1. -/
def store1 : Storage := ⟨some cfg0, some fcfg0, some 1, [(1, srcSt)], [], [], []⟩

/-- Storage holding one active Destination escrow under id 1. -/
def store1d : Storage := ⟨some cfg0, some fcfg0, some 1, [(1, dstSt)], [], [], []⟩

/-- Storage holding one inactive escrow under id 1. -/
def storeInactive : Storage := ⟨some cfg0, some fcfg0, some 1, [(1, inactiveSt)], [], [], []⟩

/-- Fresh factory storage (no escrows yet). -/
def storeF : Storage := ⟨some cfg0, some fcfg0, some 0, [], [], [], []⟩

def envAt (t : Nat) : Env := ⟨t, "c"⟩

def infoTaker : MessageInfo := ⟨"taker", []⟩

def infoAccess : MessageInfo := ⟨"access", []⟩

/-- Funds carrying exactly the factory creation fee (10 uatom). -/
def infoFee : MessageInfo := ⟨"owner", [⟨"uatom", 10⟩]⟩

def params0 : EscrowCreationParams :=
  ⟨"o1", "h1", "maker", "taker", "", 1000, 200, tlk, .Source, "chain", "dtok", 900⟩

/-- Variant of `params0` with only the `amount` Immutables field changed. -/
def params0amt : EscrowCreationParams := { params0 with amount := 1001 }

/-- The boundary-shift pair refuting digest injectivity: the fields differ
but their separator-free concatenations coincide. -/
def imA : Immutables := ⟨"ab", "c", "m", "t", "", 1, 1, ⟨1, 1⟩⟩

def imB : Immutables := ⟨"a", "bc", "m", "t", "", 1, 1, ⟨1, 1⟩⟩

/-- A fixture family for digest distinctness: a base `Immutables` and nine
variants, each differing from the base in exactly one field (both packed
timelock words counted under the `timelocks` field). -/
def c6Family : List Immutables :=
  [⟨"order1", "hash1", "maker1", "taker1", "token1", 100, 200, ⟨111, 222⟩⟩,
   ⟨"order2", "hash1", "maker1", "taker1", "token1", 100, 200, ⟨111, 222⟩⟩,
   ⟨"order1", "hash2", "maker1", "taker1", "token1", 100, 200, ⟨111, 222⟩⟩,
   ⟨"order1", "hash1", "maker2", "taker1", "token1", 100, 200, ⟨111, 222⟩⟩,
   ⟨"order1", "hash1", "maker1", "taker2", "token1", 100, 200, ⟨111, 222⟩⟩,
   ⟨"order1", "hash1", "maker1", "taker1", "token2", 100, 200, ⟨111, 222⟩⟩,
   ⟨"order1", "hash1", "maker1", "taker1", "token1", 101, 200, ⟨111, 222⟩⟩,
   ⟨"order1", "hash1", "maker1", "taker1", "token1", 100, 201, ⟨111, 222⟩⟩,
   ⟨"order1", "hash1", "maker1", "taker1", "token1", 100, 200, ⟨112, 222⟩⟩,
   ⟨"order1", "hash1", "maker1", "taker1", "token1", 100, 200, ⟨111, 223⟩⟩]

/-- The SHA-256 digests of `c6Family`, in order. -/
def c6Digests : List String :=
  ["dc1aabe590f782eb5eb32f29a48af404ca5fcac85ccc1f499701f66468c507eb",
   "618e9adb97f5bb81dec6e62f7e8a5ce6144dff838e896fd1bb045c2000fb007b",
   "1681227544fa6a538d23ccf3f799ed631974a609b71a451f90fe74f40ba152d6",
   "b03171915e0296bf83b4bd69ab2e31463781787c3c8d432ef5d72945d420c893",
   "b2fb664b16393bccb91d3a2eafbb651af3eec266cb89b607073c3fa2ddc444d7",
   "c2a71746a07473d8789376f87030754ede2618fb9511a309a424218aa1cddfd4",
   "b58896bf83b39a33396aa2b918916e08383a48be7fa7b50874b08c6d1362dfe3",
   "9d467cf6bba5d2ec886bcff3143d8916575ab52f62a886898c99ac4e74cea2ec",
   "4cd8030aae545b504dac552e02a3272209d773716d5f5d71cec25bee75e70563",
   "ae0da44f41922cc913ab53eeeb4f51af8870bd96dbfc6736d3c50bb729cf1726"]

end Fx

/-! ### Helper lemmas: storage frame on error, success inversion -/

/-- Every terminal operation leaves the storage untouched when it returns an
error: all of their writes happen after the last possible error return. -/
theorem runTerminal_error_frame (store : Storage) (env : Env) (info : MessageInfo)
    (op : TerminalOp) (post : Storage) (e : ContractError)
    (h : runTerminal store env info op = (post, .error e)) : post = store := by
  cases op <;>
    (simp only [runTerminal, execute_withdraw_src, execute_withdraw_dst, execute_cancel_src,
       execute_cancel_dst, execute_public_withdraw_src, execute_public_withdraw_dst,
       execute_public_cancel_src, execute_rescue] at h
     repeat' split at h
     all_goals simp_all)

/-- Rust `execute_cancel_creation_request` leaves the storage untouched on error. -/
theorem cancel_creation_request_error_frame (store : Storage) (env : Env)
    (info : MessageInfo) (order_hash hashlock : String) (post : Storage) (e : ContractError)
    (h : execute_cancel_creation_request store env info order_hash hashlock =
      (post, .error e)) : post = store := by
  simp only [execute_cancel_creation_request] at h
  repeat' split at h
  all_goals simp_all

/-- The escrow contract's `execute_create_escrow` leaves the storage
untouched on error: its counter and record writes happen after every check. -/
theorem escrow_create_error_frame (store : Storage) (env : Env) (info : MessageInfo)
    (order_hash hashlock maker taker token : String) (amount safety_deposit : Nat)
    (timelocks : PackedTimelocks) (escrow_type : EscrowType)
    (dst_chain_id dst_token : String) (dst_amount : Nat) (post : Storage) (e : ContractError)
    (h : escrow_execute_create_escrow store env info order_hash hashlock maker taker token
      amount safety_deposit timelocks escrow_type dst_chain_id dst_token dst_amount =
      (post, .error e)) : post = store := by
  simp only [escrow_execute_create_escrow] at h
  repeat' split at h
  all_goals simp_all

/-- Success inversion for `factory.rs::execute_create_escrow`: what a
successful creation implies about the pre-state and how it writes the
post-state. -/
theorem factory_create_ok_inv (store : Storage) (env : Env) (info : MessageInfo)
    (params : EscrowCreationParams) (salt : String) (post : Storage) (resp : Response)
    (h : factory_execute_create_escrow store env info params salt = (post, .ok resp)) :
    ∃ fc, store.factory_config = some fc ∧
      validate_escrow_creation params fc = .ok () ∧
      fc.creation_fee ≤ sentUatom info.funds ∧
      post.factory_config = store.factory_config ∧
      post.config = store.config ∧
      post.escrow_counter = some (store.escrow_counter.getD 0 + 1) ∧
      post.escrow_addresses = mapSet store.escrow_addresses
        (compute_escrow_address env.contract_address params.order_hash params.hashlock salt)
        env.contract_address ∧
      mapGet post.escrows (store.escrow_counter.getD 0 + 1) = some
        { escrow_info :=
            { immutables := mkImmutables env.block_time params.order_hash params.hashlock
                params.maker params.taker params.token params.amount params.safety_deposit
                params.timelocks,
              dst_complement :=
                if params.escrow_type.is_source then
                  some { maker := params.maker, amount := params.dst_amount,
                         token := params.dst_token, safety_deposit := params.safety_deposit,
                         chain_id := params.dst_chain_id }
                else none,
              escrow_type := params.escrow_type, is_active := true,
              created_at := env.block_time },
          balance := params.amount, native_balance := params.safety_deposit } := by
  simp only [factory_execute_create_escrow, get_next_escrow_id, save_escrow,
    escrow_exists_by_hash] at h
  repeat' split at h
  any_goals
    (injection h with h1 h2
     exact Except.noConfusion h2)
  all_goals
    (injection h with h1 h2
     subst h1
     refine ⟨_, by assumption, by assumption, by omega, rfl, rfl, rfl, rfl, ?_⟩
     split
     all_goals first
       | exact mapGet_mapSet_self _ _ _
       | simp_all)

/-- Success inversion for `execute_handle_post_interaction`. -/
theorem post_interaction_ok_inv (store : Storage) (env : Env) (info : MessageInfo)
    (order_hash hashlock maker taker token : String) (amount safety_deposit : Nat)
    (timelocks : PackedTimelocks) (dst_chain_id dst_token : String) (dst_amount : Nat)
    (post : Storage) (resp : Response)
    (h : execute_handle_post_interaction store env info order_hash hashlock maker taker token
      amount safety_deposit timelocks dst_chain_id dst_token dst_amount = (post, .ok resp)) :
    ∃ fc, store.factory_config = some fc ∧
      sentUatom info.funds = amount + safety_deposit ∧
      post.escrow_counter = some (store.escrow_counter.getD 0 + 1) ∧
      mapGet post.escrows (store.escrow_counter.getD 0 + 1) = some
        { escrow_info :=
            { immutables := mkImmutables env.block_time order_hash hashlock maker taker token
                amount safety_deposit timelocks,
              dst_complement := some
                { maker := maker, amount := dst_amount, token := dst_token,
                  safety_deposit := safety_deposit, chain_id := dst_chain_id },
              escrow_type := .Source, is_active := true, created_at := env.block_time },
          balance := amount, native_balance := safety_deposit } := by
  simp only [execute_handle_post_interaction, postInteractionParams, get_next_escrow_id,
    save_escrow, escrow_exists_by_hash] at h
  repeat' split at h
  any_goals
    (injection h with h1 h2
     exact Except.noConfusion h2)
  all_goals
    (injection h with h1 h2
     subst h1
     exact ⟨_, by assumption, by omega, rfl, mapGet_mapSet_self _ _ _⟩)

/-- Success inversion for the escrow contract's `execute_create_escrow`. -/
theorem escrow_create_ok_inv (store : Storage) (env : Env) (info : MessageInfo)
    (order_hash hashlock maker taker token : String) (amount safety_deposit : Nat)
    (timelocks : PackedTimelocks) (escrow_type : EscrowType)
    (dst_chain_id dst_token : String) (dst_amount : Nat) (post : Storage) (resp : Response)
    (h : escrow_execute_create_escrow store env info order_hash hashlock maker taker token
      amount safety_deposit timelocks escrow_type dst_chain_id dst_token dst_amount =
      (post, .ok resp)) :
    ∃ config counter, store.config = some config ∧ info.sender = config.factory ∧
      store.escrow_counter = some counter ∧
      sentUatom info.funds = amount + safety_deposit ∧
      post.escrow_counter = some (counter + 1) ∧
      mapGet post.escrows (counter + 1) = some
        { escrow_info :=
            { immutables := mkImmutables env.block_time order_hash hashlock maker taker token
                amount safety_deposit timelocks,
              dst_complement :=
                if escrow_type.is_source then
                  some { maker := maker, amount := dst_amount, token := dst_token,
                         safety_deposit := safety_deposit, chain_id := dst_chain_id }
                else none,
              escrow_type := escrow_type, is_active := true, created_at := env.block_time },
          balance := amount, native_balance := safety_deposit } := by
  simp only [escrow_execute_create_escrow] at h
  repeat' split at h
  any_goals
    (injection h with h1 h2
     exact Except.noConfusion h2)
  all_goals
    (injection h with h1 h2
     subst h1
     refine ⟨_, _, by assumption, by exact not_not.mp (by assumption), by assumption,
       by omega, rfl, ?_⟩
     split
     all_goals first
       | exact mapGet_mapSet_self _ _ _
       | simp_all)

/-- The schedule rebuilt by every creation path: `deployed_at` is the block
time truncated to 32 bits and the seven offsets round-trip verbatim. -/
theorem mkImmutables_timelocks_spec (bt : Nat) (oh hl mk tk tok : String) (am sd : Nat)
    (tl : PackedTimelocks) :
    (mkImmutables bt oh hl mk tk tok am sd tl).timelocks.deployed_at = bt % 4294967296 ∧
    ∀ s, (mkImmutables bt oh hl mk tk tok am sd tl).timelocks.get s = tl.get s := by
  have hbt : bt % 4294967296 < 2 ^ 32 := Nat.mod_lt _ (by norm_num)
  have hg : ∀ s, tl.get s < 2 ^ 8 := fun s => tl.get_lt_256 s
  constructor
  · exact PackedTimelocks.deployed_at_new _ _ _ _ _ _ _ _ hbt (hg _) (hg _) (hg _) (hg _)
  · intro s
    rw [show (mkImmutables bt oh hl mk tk tok am sd tl).timelocks =
      PackedTimelocks.new (bt % 4294967296) (tl.get .SrcWithdrawal)
        (tl.get .SrcPublicWithdrawal) (tl.get .SrcCancellation) (tl.get .SrcPublicCancellation)
        (tl.get .DstWithdrawal) (tl.get .DstPublicWithdrawal) (tl.get .DstCancellation)
      from rfl]
    rw [PackedTimelocks.get_new _ _ _ _ _ _ _ _ hbt (hg _) (hg _) (hg _) (hg _) (hg _) (hg _)
      (hg _) s]
    cases s <;> rfl

/-- C9: For every `PackedTimelocks` value, `validate()` succeeds iff the
`deployed_at` field is nonzero, the four source offsets are strictly
increasing, and, separately, the three destination offsets are strictly
increasing; any violation on either chain side makes it return an error. -/
theorem c9_timelock_validate (t : PackedTimelocks) :
    t.validate = .ok () ↔
      (t.deployed_at ≠ 0 ∧
       t.get .SrcWithdrawal < t.get .SrcPublicWithdrawal ∧
       t.get .SrcPublicWithdrawal < t.get .SrcCancellation ∧
       t.get .SrcCancellation < t.get .SrcPublicCancellation ∧
       t.get .DstWithdrawal < t.get .DstPublicWithdrawal ∧
       t.get .DstPublicWithdrawal < t.get .DstCancellation) := by
  unfold PackedTimelocks.validate
  split_ifs with h1 h2 h3 h4 h5 h6 <;>
    constructor <;> intro hh <;>
    first
      | exact hh.elim
      | exact Except.noConfusion hh
      | (exfalso; omega)
      | omega
      | rfl

/-- Witness for C9 at the scenario schedule. -/
theorem c9_timelock_validate_witness :
    (PackedTimelocks.new 1000 1 2 3 4 1 2 3).validate = .ok () :=
  (c9_timelock_validate _).mpr (by decide)

/-- C10: Every successful escrow creation (escrow-contract CreateEscrow,
factory CreateEscrow, HandlePostInteraction) stores a schedule whose
`deployed_at` equals the block time truncated to 32 bits, regardless of the
`deployed_at` inside the caller-supplied `PackedTimelocks`, while the seven
caller-supplied hour-offsets are carried into the stored schedule unchanged
(`PackedTimelocks::new` followed by `get` returns each offset verbatim). -/
theorem c10_deployed_at_override :
    (∀ (bt : Nat) (oh hl mk tk tok : String) (am sd : Nat) (tl : PackedTimelocks),
      (mkImmutables bt oh hl mk tk tok am sd tl).timelocks.deployed_at = bt % 4294967296 ∧
      ∀ s, (mkImmutables bt oh hl mk tk tok am sd tl).timelocks.get s = tl.get s) ∧
    (∀ store env info oh hl mk tk tok am sd tl et dci dtok dam post resp,
      escrow_execute_create_escrow store env info oh hl mk tk tok am sd tl et dci dtok dam =
        (post, .ok resp) →
      ∃ id st, post.escrow_counter = some id ∧ mapGet post.escrows id = some st ∧
        st.escrow_info.immutables.timelocks.deployed_at = env.block_time % 4294967296 ∧
        ∀ s, st.escrow_info.immutables.timelocks.get s = tl.get s) ∧
    (∀ store env info params salt post resp,
      factory_execute_create_escrow store env info params salt = (post, .ok resp) →
      ∃ id st, post.escrow_counter = some id ∧ mapGet post.escrows id = some st ∧
        st.escrow_info.immutables.timelocks.deployed_at = env.block_time % 4294967296 ∧
        ∀ s, st.escrow_info.immutables.timelocks.get s = params.timelocks.get s) ∧
    (∀ store env info oh hl mk tk tok am sd tl dci dtok dam post resp,
      execute_handle_post_interaction store env info oh hl mk tk tok am sd tl dci dtok dam =
        (post, .ok resp) →
      ∃ id st, post.escrow_counter = some id ∧ mapGet post.escrows id = some st ∧
        st.escrow_info.immutables.timelocks.deployed_at = env.block_time % 4294967296 ∧
        ∀ s, st.escrow_info.immutables.timelocks.get s = tl.get s) := by
  refine ⟨mkImmutables_timelocks_spec, ?_, ?_, ?_⟩
  · intro store env info oh hl mk tk tok am sd tl et dci dtok dam post resp h
    obtain ⟨config, counter, -, -, -, -, hcnt, hst⟩ :=
      escrow_create_ok_inv _ _ _ _ _ _ _ _ _ _ _ _ _ _ _ _ _ h
    exact ⟨counter + 1, _, hcnt, hst,
      (mkImmutables_timelocks_spec env.block_time oh hl mk tk tok am sd tl).1,
      (mkImmutables_timelocks_spec env.block_time oh hl mk tk tok am sd tl).2⟩
  · intro store env info params salt post resp h
    obtain ⟨fc, -, -, -, -, -, hcnt, -, hst⟩ :=
      factory_create_ok_inv _ _ _ _ _ _ _ h
    exact ⟨store.escrow_counter.getD 0 + 1, _, hcnt, hst,
      (mkImmutables_timelocks_spec env.block_time params.order_hash params.hashlock
        params.maker params.taker params.token params.amount params.safety_deposit
        params.timelocks).1,
      (mkImmutables_timelocks_spec env.block_time params.order_hash params.hashlock
        params.maker params.taker params.token params.amount params.safety_deposit
        params.timelocks).2⟩
  · intro store env info oh hl mk tk tok am sd tl dci dtok dam post resp h
    obtain ⟨fc, -, -, hcnt, hst⟩ :=
      post_interaction_ok_inv _ _ _ _ _ _ _ _ _ _ _ _ _ _ _ _ h
    exact ⟨store.escrow_counter.getD 0 + 1, _, hcnt, hst,
      (mkImmutables_timelocks_spec env.block_time oh hl mk tk tok am sd tl).1,
      (mkImmutables_timelocks_spec env.block_time oh hl mk tk tok am sd tl).2⟩

/-- Witness for C10: the scenario schedule rebuilt at block time 5000 stores
`deployed_at = 5000` and all seven offsets verbatim, and a concrete
successful factory creation exhibits the stored schedule. -/
theorem c10_deployed_at_override_witness :
    (mkImmutables 5000 "o1" "h1" "maker" "taker" "" 1000 200 Fx.tlk).timelocks.deployed_at =
      5000 ∧
    (mkImmutables 5000 "o1" "h1" "maker" "taker" "" 1000 200 Fx.tlk).timelocks.get
      .SrcPublicCancellation = 4 ∧
    (∃ id st,
      (factory_execute_create_escrow Fx.storeF (Fx.envAt 5000) Fx.infoFee Fx.params0 "s1").1.escrow_counter =
        some id ∧
      mapGet (factory_execute_create_escrow Fx.storeF (Fx.envAt 5000) Fx.infoFee Fx.params0 "s1").1.escrows
        id = some st ∧
      st.escrow_info.immutables.timelocks.deployed_at = 5000 % 4294967296 ∧
      ∀ s, st.escrow_info.immutables.timelocks.get s = Fx.params0.timelocks.get s) := by
  refine ⟨?_, ?_, ?_⟩
  · exact (c10_deployed_at_override.1 5000 "o1" "h1" "maker" "taker" "" 1000 200 Fx.tlk).1
  · rw [(c10_deployed_at_override.1 5000 "o1" "h1" "maker" "taker" "" 1000 200 Fx.tlk).2]
    rfl
  · exact c10_deployed_at_override.2.2.1 Fx.storeF (Fx.envAt 5000) Fx.infoFee Fx.params0 "s1" _ _ rfl

/-- C3: For every active Source escrow, `execute_withdraw_src` called by the
taker with a secret whose SHA-256 hex digest equals the hashlock fails with
a timelock error when `now < deployed_at + src_withdrawal_offset * 3600` and
succeeds when `now` is at or past that time, emitting transfers of the full
balance to the taker and the safety deposit to the caller and setting
`is_active` to false. -/
theorem c3_withdraw_src_secret_timelock (store : Storage) (env : Env) (info : MessageInfo)
    (escrow_id : Nat) (st : EscrowState) (secret : String)
    (hget : mapGet store.escrows escrow_id = some st)
    (htype : st.escrow_info.escrow_type = .Source)
    (hsender : info.sender = st.escrow_info.immutables.taker)
    (hact : st.escrow_info.is_active = true)
    (hsec : sha256hex (strBytes secret) = st.escrow_info.immutables.hashlock) :
    (env.block_time < st.escrow_info.immutables.timelocks.deployed_at +
        st.escrow_info.immutables.timelocks.get .SrcWithdrawal * 3600 →
      execute_withdraw_src store env info escrow_id secret =
        (store, .error (.TimelockNotExpired "SrcWithdrawal"))) ∧
    (st.escrow_info.immutables.timelocks.deployed_at +
        st.escrow_info.immutables.timelocks.get .SrcWithdrawal * 3600 ≤ env.block_time →
      execute_withdraw_src store env info escrow_id secret =
        ({ store with escrows := mapSet store.escrows escrow_id (setInactive st) },
         .ok { messages := transferMessages st.escrow_info.immutables.token
                 st.escrow_info.immutables.taker st.balance ++
               depositMessages info.sender st.native_balance })) := by
  constructor <;> intro htime <;>
    simp only [execute_withdraw_src, hget, htype, hsender, hact, hsec,
      EscrowType.is_source, EscrowType.get_withdrawal_stage,
      PackedTimelocks.is_within_stage, PackedTimelocks.get_stage_time, TimelockStage.debugStr]
  · simp [decide_eq_false (Nat.not_le.mpr htime)]
  · simp [decide_eq_true htime]

/-- Witness for C3 (Scenario A): `deployed_at = 1000`, source offsets
`(1,2,3,4)`, secret `"secret"`: withdrawal at `now = 2800` fails with the
timelock error, at `now = 4600` succeeds, paying the balance to the taker
and the deposit to the caller. -/
theorem c3_withdraw_src_secret_timelock_witness :
    execute_withdraw_src Fx.store1 (Fx.envAt 2800) Fx.infoTaker 1 "secret" =
      (Fx.store1, .error (.TimelockNotExpired "SrcWithdrawal")) ∧
    execute_withdraw_src Fx.store1 (Fx.envAt 4600) Fx.infoTaker 1 "secret" =
      ({ Fx.store1 with escrows := mapSet Fx.store1.escrows 1 (setInactive Fx.srcSt) },
       .ok { messages := transferMessages Fx.srcSt.escrow_info.immutables.token
               Fx.srcSt.escrow_info.immutables.taker Fx.srcSt.balance ++
             depositMessages Fx.infoTaker.sender Fx.srcSt.native_balance }) :=
  ⟨(c3_withdraw_src_secret_timelock Fx.store1 (Fx.envAt 2800) Fx.infoTaker 1 Fx.srcSt "secret"
      rfl rfl rfl rfl (by rfl)).1 (by decide),
   (c3_withdraw_src_secret_timelock Fx.store1 (Fx.envAt 4600) Fx.infoTaker 1 Fx.srcSt "secret"
      rfl rfl rfl rfl (by rfl)).2 (by decide)⟩

/-- C4: For every active escrow, `execute_rescue` called by the taker fails
with the rescue-delay error exactly when `now < deployed_at + rescue_delay`,
and at every `now ≥ deployed_at + rescue_delay` succeeds, emitting transfers
of both the remaining balance and the remaining safety deposit to the
caller, with no hashlock or stage check, and deactivating the record. -/
theorem c4_rescue_delay (store : Storage) (env : Env) (info : MessageInfo)
    (escrow_id : Nat) (st : EscrowState) (config : Config)
    (hget : mapGet store.escrows escrow_id = some st)
    (hsender : info.sender = st.escrow_info.immutables.taker)
    (hact : st.escrow_info.is_active = true)
    (hcfg : store.config = some config) :
    (env.block_time < st.escrow_info.immutables.timelocks.deployed_at + config.rescue_delay →
      execute_rescue store env info escrow_id =
        (store, .error (.RescueDelayNotMet env.block_time
          (st.escrow_info.immutables.timelocks.deployed_at + config.rescue_delay)))) ∧
    (st.escrow_info.immutables.timelocks.deployed_at + config.rescue_delay ≤ env.block_time →
      execute_rescue store env info escrow_id =
        ({ store with escrows := mapSet store.escrows escrow_id (setInactive st) },
         .ok { messages := transferMessages st.escrow_info.immutables.token info.sender
                 st.balance ++
               depositMessages info.sender st.native_balance })) := by
  constructor <;> intro htime <;>
    simp only [execute_rescue, hget, hsender, hact, hcfg, PackedTimelocks.rescue_start]
  · simp [htime]
  · simp [Nat.not_lt.mpr htime]

/-- Witness for C4 (Scenario D): with `deployed_at = 1000` and
`rescue_delay = 86400`, rescue at `now = 87399` fails and at `now = 87400`
succeeds, sweeping both balances to the taker. -/
theorem c4_rescue_delay_witness :
    execute_rescue Fx.store1 (Fx.envAt 87399) Fx.infoTaker 1 =
      (Fx.store1, .error (.RescueDelayNotMet 87399 87400)) ∧
    execute_rescue Fx.store1 (Fx.envAt 87400) Fx.infoTaker 1 =
      ({ Fx.store1 with escrows := mapSet Fx.store1.escrows 1 (setInactive Fx.srcSt) },
       .ok { messages := transferMessages Fx.srcSt.escrow_info.immutables.token
               Fx.infoTaker.sender Fx.srcSt.balance ++
             depositMessages Fx.infoTaker.sender Fx.srcSt.native_balance }) :=
  ⟨(c4_rescue_delay Fx.store1 (Fx.envAt 87399) Fx.infoTaker 1 Fx.srcSt Fx.cfg0
      rfl rfl rfl rfl).1 (by decide),
   (c4_rescue_delay Fx.store1 (Fx.envAt 87400) Fx.infoTaker 1 Fx.srcSt Fx.cfg0
      rfl rfl rfl rfl).2 (by decide)⟩

/-- C1 counterexample: a concrete active Source escrow with taker
`"taker"`; the access-token holder `"access"` calls PublicWithdraw (which
takes no secret at all) after the public-withdrawal stage, and the call
succeeds, paying the full main balance — not only the safety deposit — to
the caller instead of the taker.  This refutes both the "same secret check"
and the "main balance to the role's withdrawal recipient" parts of the
claim. -/
theorem c1_public_withdraw_counterexample :
    execute_public_withdraw_src Fx.store1 (Fx.envAt 8200) Fx.infoAccess 1 =
      ({ Fx.store1 with escrows := mapSet Fx.store1.escrows 1 (setInactive Fx.srcSt) },
       .ok { messages := [.BankSend "access" 500 "uatom", .BankSend "access" 100 "uatom"] }) ∧
    Fx.srcSt.escrow_info.immutables.taker = "taker" ∧
    Fx.infoAccess.sender = "access" ∧
    ("access" : String) ≠ "taker" :=
  ⟨rfl, rfl, rfl, by decide⟩

/-- C1 amended: For every active escrow, PublicWithdraw
(`execute_public_withdraw_src` on a Source escrow,
`execute_public_withdraw_dst` on a Destination escrow) called by the
access-token holder performs no secret check; it fails with a timelock
error before the public-withdrawal stage time and succeeds from that time
on, paying both the main balance and the safety deposit to the actual
caller and deactivating the record. -/
theorem c1_public_withdraw_amended (store : Storage) (env : Env) (info : MessageInfo)
    (escrow_id : Nat) (st : EscrowState) (config : Config)
    (hcfg : store.config = some config)
    (hget : mapGet store.escrows escrow_id = some st)
    (hact : st.escrow_info.is_active = true)
    (hsender : info.sender = config.access_token) :
    (st.escrow_info.escrow_type = .Source →
      (env.block_time < st.escrow_info.immutables.timelocks.get_stage_time
          .SrcPublicWithdrawal →
        execute_public_withdraw_src store env info escrow_id =
          (store, .error (.TimelockNotExpired "SrcPublicWithdrawal"))) ∧
      (st.escrow_info.immutables.timelocks.get_stage_time .SrcPublicWithdrawal ≤
          env.block_time →
        execute_public_withdraw_src store env info escrow_id =
          ({ store with escrows := mapSet store.escrows escrow_id (setInactive st) },
           .ok { messages := transferMessages st.escrow_info.immutables.token info.sender
                   st.balance ++
                 depositMessages info.sender st.native_balance }))) ∧
    (st.escrow_info.escrow_type = .Destination →
      (env.block_time < st.escrow_info.immutables.timelocks.get_stage_time
          .DstPublicWithdrawal →
        execute_public_withdraw_dst store env info escrow_id =
          (store, .error (.TimelockNotExpired "DstPublicWithdrawal"))) ∧
      (st.escrow_info.immutables.timelocks.get_stage_time .DstPublicWithdrawal ≤
          env.block_time →
        execute_public_withdraw_dst store env info escrow_id =
          ({ store with escrows := mapSet store.escrows escrow_id (setInactive st) },
           .ok { messages := transferMessages st.escrow_info.immutables.token info.sender
                   st.balance ++
                 depositMessages info.sender st.native_balance }))) := by
  refine ⟨fun htype => ⟨fun htime => ?_, fun htime => ?_⟩,
          fun htype => ⟨fun htime => ?_, fun htime => ?_⟩⟩ <;>
    simp only [execute_public_withdraw_src, execute_public_withdraw_dst, hget, htype, hcfg,
      hsender, hact, EscrowType.is_source, EscrowType.is_destination,
      EscrowType.get_public_withdrawal_stage, PackedTimelocks.is_within_stage,
      TimelockStage.debugStr]
  · simp [decide_eq_false (Nat.not_le.mpr htime)]
  · simp [decide_eq_true htime]
  · simp [decide_eq_false (Nat.not_le.mpr htime)]
  · simp [decide_eq_true htime]

/-- Witness for the amended C1, on a Destination escrow past its
public-withdrawal stage. -/
theorem c1_public_withdraw_amended_witness :
    execute_public_withdraw_dst Fx.store1d (Fx.envAt 8200) Fx.infoAccess 1 =
      ({ Fx.store1d with escrows := mapSet Fx.store1d.escrows 1 (setInactive Fx.dstSt) },
       .ok { messages := transferMessages Fx.dstSt.escrow_info.immutables.token
               Fx.infoAccess.sender Fx.dstSt.balance ++
             depositMessages Fx.infoAccess.sender Fx.dstSt.native_balance }) :=
  ((c1_public_withdraw_amended Fx.store1d (Fx.envAt 8200) Fx.infoAccess 1 Fx.dstSt Fx.cfg0
      rfl rfl rfl rfl).2 rfl).2 (by decide)

/-- C2: For every escrow record whose `is_active` flag is false, each of the
eight terminal operations returns an error, produces no transfer messages
(an error result carries no response), and leaves the storage unchanged;
and every successful terminal operation leaves the record inactive, so at
most one terminal operation can ever succeed per record and no record is
ever reactivated. -/
theorem c2_inactive_terminal_frozen :
    (∀ (store : Storage) (env : Env) (info : MessageInfo) (op : TerminalOp) (st : EscrowState),
      mapGet store.escrows op.escrowId = some st →
      st.escrow_info.is_active = false →
      (runTerminal store env info op).1 = store ∧
        ∃ e, (runTerminal store env info op).2 = .error e) ∧
    (∀ (store : Storage) (env : Env) (info : MessageInfo) (op : TerminalOp) (post : Storage)
      (resp : Response),
      runTerminal store env info op = (post, .ok resp) →
      ∃ st', mapGet post.escrows op.escrowId = some st' ∧
        st'.escrow_info.is_active = false) := by
  constructor
  · intro store env info op st hget hact
    cases op <;>
      (simp only [TerminalOp.escrowId] at hget
       simp only [runTerminal, execute_withdraw_src, execute_withdraw_dst, execute_cancel_src,
         execute_cancel_dst, execute_public_withdraw_src, execute_public_withdraw_dst,
         execute_public_cancel_src, execute_rescue, hget]
       repeat' split
       all_goals simp_all)
  · intro store env info op post resp h
    cases op <;>
      (simp only [TerminalOp.escrowId]
       simp only [runTerminal, execute_withdraw_src, execute_withdraw_dst, execute_cancel_src,
         execute_cancel_dst, execute_public_withdraw_src, execute_public_withdraw_dst,
         execute_public_cancel_src, execute_rescue] at h
       repeat' split at h
       any_goals (injection h with h1 h2; exact Except.noConfusion h2)
       all_goals (injection h with h1 h2; subst h1
                  exact ⟨_, mapGet_mapSet_self _ _ _, rfl⟩))

/-- Witness for C2: on a concrete inactive record, a cancel attempt errors
and leaves the storage untouched. -/
theorem c2_inactive_terminal_frozen_witness :
    (runTerminal Fx.storeInactive (Fx.envAt 4600) Fx.infoTaker (.cancelSrc 1)).1 =
      Fx.storeInactive ∧
    ∃ e, (runTerminal Fx.storeInactive (Fx.envAt 4600) Fx.infoTaker (.cancelSrc 1)).2 =
      .error e :=
  c2_inactive_terminal_frozen.1 Fx.storeInactive (Fx.envAt 4600) Fx.infoTaker
    (.cancelSrc 1) Fx.inactiveSt rfl rfl

/-- C5 counterexample: a concrete factory CreateEscrow call that fails its
duplicate-by-hash check (same params as an already-created escrow, only the
salt differs) returns an error yet leaves behind the creation request and
address mapping it had already written — the storage after the failing call
differs from the storage before it. -/
theorem c5_error_frame_counterexample :
    (∃ e, (factory_execute_create_escrow
        (factory_execute_create_escrow Fx.storeF (Fx.envAt 5000) Fx.infoFee Fx.params0 "s1").1
        (Fx.envAt 5000) Fx.infoFee Fx.params0 "s2").2 = .error e) ∧
    (factory_execute_create_escrow
        (factory_execute_create_escrow Fx.storeF (Fx.envAt 5000) Fx.infoFee Fx.params0 "s1").1
        (Fx.envAt 5000) Fx.infoFee Fx.params0 "s2").1 ≠
      (factory_execute_create_escrow Fx.storeF (Fx.envAt 5000) Fx.infoFee Fx.params0 "s1").1 :=
  ⟨⟨_, rfl⟩, by decide⟩

/-- C5 amended: every terminal escrow operation, the creation-request
cancellation, and the escrow contract's own CreateEscrow leave the storage
exactly as it was whenever they return an error; the factory creation paths
(`factory.rs` CreateEscrow / HandlePostInteraction) do not share this
property, because they store the creation request and address mapping
before the immutables validation and duplicate-by-hash checks run. -/
theorem c5_error_frame_amended :
    (∀ (store : Storage) (env : Env) (info : MessageInfo) (op : TerminalOp) (post : Storage)
      (e : ContractError),
      runTerminal store env info op = (post, .error e) → post = store) ∧
    (∀ (store : Storage) (env : Env) (info : MessageInfo) (order_hash hashlock : String)
      (post : Storage) (e : ContractError),
      execute_cancel_creation_request store env info order_hash hashlock = (post, .error e) →
      post = store) ∧
    (∀ (store : Storage) (env : Env) (info : MessageInfo)
      (order_hash hashlock maker taker token : String) (amount safety_deposit : Nat)
      (timelocks : PackedTimelocks) (escrow_type : EscrowType)
      (dst_chain_id dst_token : String) (dst_amount : Nat) (post : Storage)
      (e : ContractError),
      escrow_execute_create_escrow store env info order_hash hashlock maker taker token
        amount safety_deposit timelocks escrow_type dst_chain_id dst_token dst_amount =
        (post, .error e) →
      post = store) :=
  ⟨runTerminal_error_frame, cancel_creation_request_error_frame, escrow_create_error_frame⟩

/-- Witness for the amended C5: a concrete failing withdraw leaves the
storage untouched. -/
theorem c5_error_frame_amended_witness :
    (runTerminal Fx.store1 (Fx.envAt 2800) Fx.infoTaker (.withdrawSrc 1 "secret")).1 =
      Fx.store1 :=
  c5_error_frame_amended.1 Fx.store1 (Fx.envAt 2800) Fx.infoTaker (.withdrawSrc 1 "secret")
    Fx.store1 (.TimelockNotExpired "SrcWithdrawal") rfl

/-- C6 counterexample: `Immutables::hash` concatenates the fields with no
separators, so two values that differ in their `order_hash` and `hashlock`
fields but share the same concatenated bytes (`"ab" ++ "c" = "a" ++ "bc"`)
produce the same digest — digests are not injective over values differing
in at least one field. -/
theorem c6_hash_injectivity_counterexample :
    Fx.imA ≠ Fx.imB ∧ Fx.imA.order_hash ≠ Fx.imB.order_hash ∧
      Immutables.hash Fx.imA = Immutables.hash Fx.imB :=
  ⟨by decide, by decide, rfl⟩

/-- C6 amended: `Immutables::hash` is a pure function of the value (so
byte-identical values always produce the same digest), and across the
concrete fixture family — a base value and nine variants each differing in
exactly one field — all ten digests are pairwise distinct; but injectivity
fails in general because the separator-free concatenation lets bytes shift
across adjacent field boundaries. -/
theorem c6_hash_fixture_distinct :
    Fx.c6Family.map Immutables.hash = Fx.c6Digests ∧ Fx.c6Digests.Nodup :=
  ⟨rfl, by decide⟩

/-- C7 counterexample: the factory CreateEscrow entry point succeeds with
funds equal to only the creation fee (10 uatom), although
`amount + safety_deposit = 1200`: it never compares the funds to
`amount + safety_deposit`, refuting the claim for that entry point. -/
theorem c7_funds_check_counterexample :
    (∃ post resp, factory_execute_create_escrow Fx.storeF (Fx.envAt 5000) Fx.infoFee
      Fx.params0 "s1" = (post, .ok resp)) ∧
    sentUatom Fx.infoFee.funds ≠ Fx.params0.amount + Fx.params0.safety_deposit :=
  ⟨⟨_, _, rfl⟩, by decide⟩

/-- C7 amended: the escrow contract's CreateEscrow and the factory's
HandlePostInteraction require the caller to have supplied exactly
`amount + safety_deposit` uatom and fail with an insufficient-balance error
otherwise; the factory's CreateEscrow instead only requires the funds to
cover its creation fee and fails with an insufficient-balance error when
they do not. -/
theorem c7_funds_check_amended :
    (∀ (store : Storage) (env : Env) (info : MessageInfo)
      (oh hl mk tk tok : String) (am sd : Nat) (tl : PackedTimelocks) (et : EscrowType)
      (dci dtok : String) (dam : Nat) (config : Config),
      store.config = some config → info.sender = config.factory →
      ¬(oh = "" ∨ hl = "") → ¬(am = 0 ∨ sd = 0) →
      sentUatom info.funds ≠ am + sd →
      escrow_execute_create_escrow store env info oh hl mk tk tok am sd tl et dci dtok dam =
        (store, .error (.InsufficientBalance (Nat.repr (am + sd))
          (Nat.repr (sentUatom info.funds))))) ∧
    (∀ (store : Storage) (env : Env) (info : MessageInfo)
      (oh hl mk tk tok : String) (am sd : Nat) (tl : PackedTimelocks)
      (dci dtok : String) (dam : Nat) (fc : FactoryConfig),
      store.factory_config = some fc →
      validate_escrow_creation
        (postInteractionParams oh hl mk tk tok am sd tl dci dtok dam) fc = .ok () →
      sentUatom info.funds ≠ am + sd →
      execute_handle_post_interaction store env info oh hl mk tk tok am sd tl dci dtok dam =
        (store, .error (.InsufficientBalance (Nat.repr (am + sd))
          (Nat.repr (sentUatom info.funds))))) ∧
    (∀ (store : Storage) (env : Env) (info : MessageInfo)
      (params : EscrowCreationParams) (salt : String) (fc : FactoryConfig),
      store.factory_config = some fc →
      validate_escrow_creation params fc = .ok () →
      sentUatom info.funds < fc.creation_fee →
      factory_execute_create_escrow store env info params salt =
        (store, .error (.InsufficientBalance (Nat.repr fc.creation_fee)
          (Nat.repr (sentUatom info.funds))))) := by
  refine ⟨?_, ?_, ?_⟩
  · intro store env info oh hl mk tk tok am sd tl et dci dtok dam config hcfg hsender h1 h2
      hfunds
    simp only [escrow_execute_create_escrow, hcfg]
    rw [if_neg (by simp [hsender]), if_neg h1, if_neg h2, if_pos hfunds]
  · intro store env info oh hl mk tk tok am sd tl dci dtok dam fc hfc hval hfunds
    simp only [execute_handle_post_interaction, hfc, hval]
    rw [if_pos hfunds]
  · intro store env info params salt fc hfc hval hfee
    simp only [factory_execute_create_escrow, hfc, hval]
    rw [if_pos hfee]

/-- Witness for the amended C7: the escrow contract's CreateEscrow with no
funds attached fails with the insufficient-balance error. -/
theorem c7_funds_check_amended_witness :
    escrow_execute_create_escrow Fx.storeF (Fx.envAt 5000) ⟨"factory", []⟩ "o1" "h1" "maker"
      "taker" "" 1000 200 Fx.tlk .Source "chain" "dtok" 900 =
      (Fx.storeF, .error (.InsufficientBalance "1200" "0")) :=
  c7_funds_check_amended.1 Fx.storeF (Fx.envAt 5000) ⟨"factory", []⟩ "o1" "h1" "maker"
    "taker" "" 1000 200 Fx.tlk .Source "chain" "dtok" 900 Fx.cfg0 rfl rfl (by decide)
    (by decide) (by decide)

/-- C8 counterexample: after a successful factory creation, a second call
that differs in an Immutables field (the amount) but reuses the same
order_hash, hashlock and salt fails with `EscrowAlreadyExists` — the
deterministic-address dedup keys on (contract, order_hash, hashlock, salt)
only, refuting "a second creation call differing in at least one Immutables
field succeeds". -/
theorem c8_duplicate_creation_counterexample :
    (∃ post resp, factory_execute_create_escrow Fx.storeF (Fx.envAt 5000) Fx.infoFee
      Fx.params0 "s1" = (post, .ok resp)) ∧
    Fx.params0amt.amount ≠ Fx.params0.amount ∧
    (factory_execute_create_escrow
        (factory_execute_create_escrow Fx.storeF (Fx.envAt 5000) Fx.infoFee Fx.params0 "s1").1
        (Fx.envAt 5000) Fx.infoFee Fx.params0amt "s1").2 =
      .error (.EscrowAlreadyExists (compute_escrow_address "c" "o1" "h1" "s1")) :=
  ⟨⟨_, _, rfl⟩, by decide, rfl⟩

/-- C8 amended: after a successful factory creation (which stores its record
under the strictly increased counter value), a second call with the same
params and salt fails with `EscrowAlreadyExists` and stores nothing new
(the storage is returned unchanged), and any second creation call that does
succeed (for example one differing in order_hash) is assigned the next,
strictly larger escrow id. -/
theorem c8_duplicate_creation_amended (S0 : Storage) (env : Env) (info : MessageInfo)
    (params : EscrowCreationParams) (salt : String) (S1 : Storage) (resp : Response)
    (h : factory_execute_create_escrow S0 env info params salt = (S1, .ok resp)) :
    (S1.escrow_counter = some (S0.escrow_counter.getD 0 + 1) ∧
     (mapGet S1.escrows (S0.escrow_counter.getD 0 + 1)).isSome = true) ∧
    factory_execute_create_escrow S1 env info params salt =
      (S1, .error (.EscrowAlreadyExists
        (compute_escrow_address env.contract_address params.order_hash params.hashlock
          salt))) ∧
    (∀ (env2 : Env) (info2 : MessageInfo) (params2 : EscrowCreationParams) (salt2 : String)
      (S2 : Storage) (resp2 : Response),
      factory_execute_create_escrow S1 env2 info2 params2 salt2 = (S2, .ok resp2) →
      S2.escrow_counter = some (S0.escrow_counter.getD 0 + 2) ∧
      (mapGet S2.escrows (S0.escrow_counter.getD 0 + 2)).isSome = true) := by
  obtain ⟨fc, hfc, hval, hfee, hpfc, hpcfg, hcnt, haddr, hst⟩ :=
    factory_create_ok_inv _ _ _ _ _ _ _ h
  refine ⟨⟨hcnt, by rw [hst]; rfl⟩, ?_, ?_⟩
  · simp only [factory_execute_create_escrow, hpfc, hfc, hval]
    rw [if_neg (Nat.not_lt.mpr hfee)]
    simp only [haddr, mapGet_mapSet_self, Option.isSome_some, if_pos]
  · intro env2 info2 params2 salt2 S2 resp2 h2
    obtain ⟨fc2, _, _, _, _, _, hcnt2, _, hst2⟩ := factory_create_ok_inv _ _ _ _ _ _ _ h2
    have hg : S1.escrow_counter.getD 0 = S0.escrow_counter.getD 0 + 1 := by rw [hcnt]; rfl
    rw [hg] at hcnt2 hst2
    exact ⟨hcnt2, by rw [hst2]; rfl⟩

/-- Witness for the amended C8: the concrete duplicate second call (same
params, same salt) fails with `EscrowAlreadyExists` and returns the storage
of the first call unchanged. -/
theorem c8_duplicate_creation_amended_witness :
    factory_execute_create_escrow
        (factory_execute_create_escrow Fx.storeF (Fx.envAt 5000) Fx.infoFee Fx.params0 "s1").1
        (Fx.envAt 5000) Fx.infoFee Fx.params0 "s1" =
      ((factory_execute_create_escrow Fx.storeF (Fx.envAt 5000) Fx.infoFee Fx.params0 "s1").1,
       .error (.EscrowAlreadyExists (compute_escrow_address "c" "o1" "h1" "s1"))) :=
  (c8_duplicate_creation_amended Fx.storeF (Fx.envAt 5000) Fx.infoFee Fx.params0 "s1"
    _ _ rfl).2.1

end UniteCosmos
